import Mathlib

/-!
# saga-blog: the payment and shipping demo services

A shallow embedding of `payment/main.go` and `shipping/main.go`.

Each Go handler reads an HTTP request and writes to a response writer; along
the way it prints log lines, may sleep, and (payment only) updates the
package-level variable `retrier` and draws one number from `math/rand`.
Here a handler is a function from the value of `retrier` before the call and
a description of what the request delivers to an `Outcome`: the value of
`retrier` afterwards, what was written to the response writer, the log lines
and the time slept.

Go's `int` is taken to be 64 bits wide: `++` wraps modulo `2^64` and `%` is
the truncated remainder (`Int.tmod`).
-/

namespace Saga

/-! ## Go primitives -/

/-- Smallest value of a 64-bit signed `int`. -/
def minInt : Int := -(2 ^ 63)

/-- Largest value of a 64-bit signed `int`. -/
def maxInt : Int := 2 ^ 63 - 1

/-- Two's-complement wrap of a mathematical integer into the 64-bit signed range. -/
def wrapInt (x : Int) : Int := (x + 2 ^ 63) % 2 ^ 64 - 2 ^ 63

/-- Values a Go `int` variable can hold. -/
def isInt (x : Int) : Prop := minInt ≤ x ∧ x ≤ maxInt

instance (x : Int) : Decidable (isInt x) := by
  unfold isInt; exact inferInstance

/-- Go's `x++` on an `int`. -/
def incr (x : Int) : Int := wrapInt (x + 1)

/-- Go's `x % y` on `int`: the remainder has the sign of the dividend. -/
def rem (x y : Int) : Int := Int.tmod x y

/-- Go's `len(s)` on a string: its length in bytes. -/
def len (s : String) : Nat := s.utf8ByteSize

/-- `time.Minute`, a duration in nanoseconds. -/
def Minute : Nat := 60 * 1000000000

/-- `rand.Intn(n)` for `0 < n`: the standard library reduces the raw
non-negative draw `v` it accepted from the source modulo `n`. -/
def Intn (n : Int) (v : Nat) : Int := (v : Int) % n

/-- Go's `%v` formatting of a `bool`. -/
def fmtBool (b : Bool) : String := if b then "true" else "false"

/-- Go's `%v` formatting of an `int`. -/
def fmtInt (i : Int) : String := toString i

/-! ## The response writer and `direktivapps` -/

/-- What a handler has written to its `http.ResponseWriter`: the error
envelope (code, message) set by `direktivapps.RespondWithError`, and the
bytes passed to `w.Write`. -/
structure ResponseWriter where
  error : Option (String × String)
  body : Option String
deriving DecidableEq, Repr

/-- A response writer nothing has been written to. -/
def ResponseWriter.empty : ResponseWriter := ⟨none, none⟩

/-- `direktivapps.RespondWithError(w, code, msg)`. -/
def RespondWithError (w : ResponseWriter) (code msg : String) : ResponseWriter :=
  { w with error := some (code, msg) }

/-- `w.Write(result)`. -/
def Write (w : ResponseWriter) (result : String) : ResponseWriter :=
  { w with body := some result }

/-- The "no customer provided" response: the error envelope and no body. -/
def missingCustomer : ResponseWriter :=
  ⟨some ("io.direktiv.customer", "no customer provided"), none⟩

/-- One line of an order. -/
structure orderLine where
  Productid : Int
  Quantity : Int
deriving DecidableEq, Repr

/-- Result of one handler invocation. -/
structure Outcome where
  retrier : Int
  w : ResponseWriter
  logs : List String
  slept : Nat
deriving DecidableEq, Repr

/-! ## payment/main.go -/

namespace payment

/-- Initial value of the package variable `retrier`. -/
def retrier : Int := 0

structure orderInfo where
  Customer : String
  Transaction : String
  Order : List orderLine
  Action : String
deriving DecidableEq, Repr

structure orderResult where
  Result : Bool
  TransactionID : Int
deriving DecidableEq, Repr

/-- The JSON encoding of an `orderResult`, fields in declaration order. -/
def jsonBytes (o : orderResult) : String :=
  "\x7b\"result\":" ++ fmtBool o.Result ++ ",\"transactionID\":" ++ fmtInt o.TransactionID ++ "\x7d"

/-- `json.Marshal` of an `orderResult`; it has no failing case for a struct
of a `bool` and an `int`. -/
def jsonMarshal (o : orderResult) : Except String String :=
  .ok (jsonBytes o)

/-- Go's `%+v` formatting of an `orderResult`. -/
def fmtPlus (o : orderResult) : String :=
  "\x7bResult:" ++ fmtBool o.Result ++ " TransactionID:" ++ fmtInt o.TransactionID ++ "\x7d"

/-- What one HTTP request delivers to `paymentHandler`: the action id header,
the result of `NewDirektivLogWriter(aid)`, the result of
`direktivapps.Unmarshal(&cc, r)`, and the raw draw `rand.Intn` reduces. -/
structure Request where
  aid : String
  logWriter : Except String Unit
  unmarshal : Except String orderInfo
  rand : Nat

/-- The end of `paymentHandler` (from `or := orderResult ...` on): build the
result, marshal it, log it and write it. -/
def writeResult (retrier : Int) (r : Request) (cc : orderInfo) (processed : Bool)
    (logs : List String) (slept : Nat) : Outcome :=
  let w := ResponseWriter.empty
  let or : orderResult := ⟨processed, Intn 100 r.rand⟩
  match jsonMarshal or with
  | .error err => ⟨retrier, RespondWithError w "io.direktiv.internal" err, logs, slept⟩
  | .ok result =>
    let logs := logs ++
      ["payment request for customer " ++ cc.Customer ++ ": " ++ fmtBool processed,
       "json result: " ++ result ++ " " ++ fmtPlus or]
    ⟨retrier, Write w result, logs, slept⟩

/-- The function `paymentHandler`, applied with `retrier` holding `retrier`. -/
def paymentHandler (retrier : Int) (r : Request) : Outcome :=
  let w := ResponseWriter.empty
  match r.logWriter with
  | .error err => ⟨retrier, RespondWithError w "io.direktiv.logger" err, [], 0⟩
  | .ok _ =>
    let logs := ["payment request"]
    match r.unmarshal with
    | .error err => ⟨retrier, RespondWithError w "io.direktiv.data" err, logs, 0⟩
    | .ok cc =>
      if cc.Action = "undo" then
        ⟨retrier, w,
          logs ++ ["undo payment " ++ cc.Customer ++ " (" ++ r.aid ++ "), transaction id: "
            ++ cc.Transaction], 0⟩
      else
        let logs := logs ++
          ["running payment for " ++ cc.Customer ++ " (" ++ r.aid ++ "), transaction id: "
            ++ cc.Transaction]
        if len cc.Customer = 0 then
          ⟨retrier, RespondWithError w "io.direktiv.customer" "no customer provided", logs, 0⟩
        else
          let processed := true
          let slept := if cc.Customer = "Johnny Patience" then 2 * Minute else 0
          let processed := if cc.Customer = "Johnny No-Cash" then false else processed
          if cc.Customer = "Pay Retry" then
            let retrier := incr retrier
            if rem retrier 3 ≠ 0 then
              ⟨retrier, RespondWithError w "io.direktiv.customer" "payment failed", logs, slept⟩
            else
              writeResult retrier r cc processed logs slept
          else
            writeResult retrier r cc processed logs slept

/-- A sequence of requests served one after the other: the final value of
`retrier` and the response of every request, in order. -/
def serve (retrier : Int) : List Request → Int × List ResponseWriter
  | [] => (retrier, [])
  | r :: rs =>
    let o := paymentHandler retrier r
    let rest := serve o.retrier rs
    (rest.1, o.w :: rest.2)

/-- A request whose log writer was created and whose body decoded to `cc`. -/
def decoded (aid : String) (cc : orderInfo) (v : Nat) : Request :=
  ⟨aid, .ok (), .ok cc, v⟩

/-- The request reaches the retry demo: it decoded, is not an undo, and its
customer is exactly "Pay Retry". -/
def isPayRetry (r : Request) : Bool :=
  match r.logWriter, r.unmarshal with
  | .ok _, .ok cc => cc.Action ≠ "undo" && cc.Customer = "Pay Retry"
  | _, _ => false

/-- A decoded non-undo request of customer "Pay Retry" with draw `v`. -/
def payRetryRequest (v : Nat) : Request :=
  decoded "a1" ⟨"Pay Retry", "t1", [⟨1, 2⟩], ""⟩ v

/-- Of the responses `ws` given to the requests `rs`, those given to requests
that reach the retry demo. -/
def payRetryResponses (rs : List Request) (ws : List ResponseWriter) : List ResponseWriter :=
  ((rs.zip ws).filter (fun p => isPayRetry p.1)).map Prod.snd

/-- The "payment failed" response. -/
def paymentFailed : ResponseWriter :=
  ⟨some ("io.direktiv.customer", "payment failed"), none⟩

/-- The response carrying the result `o` and no error envelope. -/
def resultBody (o : orderResult) : ResponseWriter :=
  ⟨none, some (jsonBytes o)⟩

end payment

/-! ## shipping/main.go -/

namespace shipping

/-- Initial value of the package variable `retrier` (declared, never used). -/
def retrier : Int := 0

structure shippingInfo where
  Customer : String
  Transaction : String
  Order : List orderLine
deriving DecidableEq, Repr

/-- `json.Marshal(&shipping)` of a `bool`; the handler drops its error. -/
def jsonMarshal (b : Bool) : String := fmtBool b

/-- What one HTTP request delivers to `creditHandler`. -/
structure Request where
  aid : String
  logWriter : Except String Unit
  unmarshal : Except String shippingInfo

/-- The function `creditHandler`, applied with `retrier` holding `retrier`. -/
def creditHandler (retrier : Int) (r : Request) : Outcome :=
  let w := ResponseWriter.empty
  match r.logWriter with
  | .error err => ⟨retrier, RespondWithError w "io.direktiv.logger" err, [], 0⟩
  | .ok _ =>
    let logs := ["shipping request"]
    match r.unmarshal with
    | .error err => ⟨retrier, RespondWithError w "io.direktiv.data" err, logs, 0⟩
    | .ok cc =>
      let logs := logs ++ ["executing shipping " ++ cc.Customer ++ " (" ++ r.aid ++ ")"]
      if len cc.Customer = 0 then
        ⟨retrier, RespondWithError w "io.direktiv.customer" "no customer provided", logs, 0⟩
      else
        let shipping := true
        let shipping := if cc.Customer = "Johnny Mars" then false else shipping
        let result := jsonMarshal shipping
        let logs := logs ++
          ["shipping request for customer " ++ cc.Customer ++ ": " ++ fmtBool shipping]
        ⟨retrier, Write w result, logs, 0⟩

/-- A request whose log writer was created and whose body decoded to `cc`. -/
def decoded (aid : String) (cc : shippingInfo) : Request :=
  ⟨aid, .ok (), .ok cc⟩

end shipping

/-! ## Basic facts -/

theorem len_eq_zero_iff (s : String) : len s = 0 ↔ s = "" := by
  constructor
  · intro h
    rcases s with ⟨cs⟩
    cases cs with
    | nil => rfl
    | cons c cs =>
      exfalso
      simp [len, String.utf8ByteSize, String.utf8ByteSize.go] at h
      have := Char.utf8Size_pos c
      omega
  · rintro rfl; rfl

theorem len_ne_zero {s : String} (h : s ≠ "") : len s ≠ 0 :=
  fun h0 => h ((len_eq_zero_iff s).mp h0)

theorem rem_three_eq_zero_iff (x : Int) : rem x 3 = 0 ↔ x % 3 = 0 := by
  unfold rem
  constructor
  · intro h; exact Int.emod_eq_zero_of_dvd (Int.dvd_of_tmod_eq_zero h)
  · intro h; exact Int.tmod_eq_zero_of_dvd (Int.dvd_of_emod_eq_zero h)

theorem incr_of_lt {c : Int} (h0 : minInt ≤ c) (h1 : c < maxInt) : incr c = c + 1 := by
  unfold incr wrapInt
  unfold minInt at h0
  unfold maxInt at h1
  omega

theorem incr_maxInt : incr maxInt = minInt := by
  decide

theorem isInt_incr (c : Int) : isInt (incr c) := by
  unfold isInt incr wrapInt minInt maxInt
  omega

theorem Intn_hundred_range (v : Nat) : 0 ≤ Intn 100 v ∧ Intn 100 v < 100 := by
  unfold Intn
  omega

open payment in
/-- The handler on a decoded request that is not an undo and has a customer,
with the three customer tests still to be decided. -/
theorem paymentHandler_decoded (c : Int) (aid : String) (cc : orderInfo) (v : Nat)
    (hu : cc.Action ≠ "undo") (h0 : cc.Customer ≠ "") :
    (paymentHandler c (decoded aid cc v)).w =
      (if cc.Customer = "Pay Retry" ∧ rem (incr c) 3 ≠ 0 then paymentFailed
       else resultBody ⟨if cc.Customer = "Johnny No-Cash" then false else true, Intn 100 v⟩) ∧
    (paymentHandler c (decoded aid cc v)).retrier =
      (if cc.Customer = "Pay Retry" then incr c else c) := by
  have hl := len_ne_zero h0
  by_cases hp : cc.Customer = "Pay Retry"
  · have hl2 : len "Pay Retry" ≠ 0 := hp ▸ hl
    by_cases hr : rem (incr c) 3 = 0
    · simp [paymentHandler, writeResult, decoded, hu, hl2, hp, hr, jsonMarshal, resultBody,
        Write, ResponseWriter.empty]
    · simp [paymentHandler, decoded, hu, hl2, hp, hr, paymentFailed, RespondWithError,
        ResponseWriter.empty]
  · simp [paymentHandler, writeResult, decoded, hu, hl, hp, jsonMarshal, resultBody, Write,
      ResponseWriter.empty]

open shipping in
/-- The shipping handler on a decoded request that has a customer. -/
theorem creditHandler_decoded (c : Int) (aid : String) (cc : shippingInfo)
    (h0 : cc.Customer ≠ "") :
    (creditHandler c (shipping.decoded aid cc)).w =
      ⟨none, some (if cc.Customer = "Johnny Mars" then "false" else "true")⟩ := by
  have hl := len_ne_zero h0
  by_cases hm : cc.Customer = "Johnny Mars"
  · have hl2 : len "Johnny Mars" ≠ 0 := hm ▸ hl
    simp [creditHandler, shipping.decoded, hl2, hm, shipping.jsonMarshal, fmtBool, Write,
      ResponseWriter.empty]
  · simp [creditHandler, shipping.decoded, hl, hm, shipping.jsonMarshal, fmtBool, Write,
      ResponseWriter.empty]

/-! ## Shipping: the result -/

/-- C1: for every decoded shipping request with a non-empty customer the
response has no error envelope and its body is the JSON boolean `false` when
the customer is exactly "Johnny Mars" and the JSON boolean `true` for every
other customer string. -/
theorem shipping_result (c : Int) (aid : String) (cc : shipping.shippingInfo)
    (h0 : cc.Customer ≠ "") :
    (shipping.creditHandler c (shipping.decoded aid cc)).w.error = none ∧
    (cc.Customer = "Johnny Mars" →
      (shipping.creditHandler c (shipping.decoded aid cc)).w.body = some "false") ∧
    (cc.Customer ≠ "Johnny Mars" →
      (shipping.creditHandler c (shipping.decoded aid cc)).w.body = some "true") := by
  rw [creditHandler_decoded c aid cc h0]
  refine ⟨rfl, ?_, ?_⟩
  · intro h; simp [h]
  · intro h; simp [h]

/-- Witness for C1 at a customer that differs from "Johnny Mars" only in case
and surrounding blanks. -/
theorem shipping_result_witness :
    (shipping.creditHandler 0 (shipping.decoded "a1" ⟨" johnny mars ", "t1", []⟩)).w.error = none ∧
    ((" johnny mars " : String) = "Johnny Mars" →
      (shipping.creditHandler 0 (shipping.decoded "a1" ⟨" johnny mars ", "t1", []⟩)).w.body
        = some "false") ∧
    ((" johnny mars " : String) ≠ "Johnny Mars" →
      (shipping.creditHandler 0 (shipping.decoded "a1" ⟨" johnny mars ", "t1", []⟩)).w.body
        = some "true") :=
  shipping_result 0 "a1" ⟨" johnny mars ", "t1", []⟩ (by decide)

/-! ## Missing customer -/

/-- C2, as stated, fails: a decoded payment request with an empty customer and
action "undo" gets the empty response, not the "no customer provided" error. -/
theorem missing_customer_undo_counterexample :
    (payment.paymentHandler 0 (payment.decoded "a1" ⟨"", "t1", [], "undo"⟩ 0)).w
      ≠ missingCustomer := by
  decide

/-- C2, amended: for every decoded request with an empty customer the shipping
handler answers with the "no customer provided" error envelope and no body,
whatever the other fields are, and the payment handler does so whenever the
action is not "undo". -/
theorem missing_customer (c : Int) (aid t : String) (o : List orderLine) (a : String) (v : Nat)
    (ha : a ≠ "undo") :
    (payment.paymentHandler c (payment.decoded aid ⟨"", t, o, a⟩ v)).w = missingCustomer ∧
    (shipping.creditHandler c (shipping.decoded aid ⟨"", t, o⟩)).w = missingCustomer := by
  have hlen : len "" = 0 := rfl
  constructor
  · simp [payment.paymentHandler, payment.decoded, ha, hlen, missingCustomer, RespondWithError,
      ResponseWriter.empty]
  · simp [shipping.creditHandler, shipping.decoded, hlen, missingCustomer, RespondWithError,
      ResponseWriter.empty]

/-- Witness for the amended C2. -/
theorem missing_customer_witness :
    (payment.paymentHandler 7 (payment.decoded "a1" ⟨"", "t1", [⟨1, 2⟩], "pay"⟩ 5)).w
      = missingCustomer ∧
    (shipping.creditHandler 7 (shipping.decoded "a1" ⟨"", "t1", [⟨1, 2⟩]⟩)).w = missingCustomer :=
  missing_customer 7 "a1" "t1" [⟨1, 2⟩] "pay" 5 (by decide)

/-! ## Payment: decline, undo, default success, transaction id -/

/-- C4: for every decoded request that is not an undo and whose customer is
exactly "Johnny No-Cash", and for every value of the counter, the payment
handler writes no error envelope and writes a result body whose result field
is `false`: the bytes written are `{"result":false,"transactionID":t}` with
`t` the decimal form of the draw reduced by `rand.Intn(100)`. -/
theorem no_cash_declined (c : Int) (aid t : String) (o : List orderLine) (a : String) (v : Nat)
    (ha : a ≠ "undo") :
    (payment.paymentHandler c (payment.decoded aid ⟨"Johnny No-Cash", t, o, a⟩ v)).w.error = none ∧
    (payment.paymentHandler c (payment.decoded aid ⟨"Johnny No-Cash", t, o, a⟩ v)).w.body
      = some ("\x7b\"result\":false,\"transactionID\":" ++ toString (Intn 100 v) ++ "\x7d") := by
  have hne0 : ("Johnny No-Cash" : String) ≠ "" := by decide
  have h := (paymentHandler_decoded c aid ⟨"Johnny No-Cash", t, o, a⟩ v ha hne0).1
  have hne : ("Johnny No-Cash" : String) ≠ "Pay Retry" := by decide
  simp only [hne, false_and, if_false, if_true] at h
  rw [h]
  refine ⟨rfl, ?_⟩
  have e : ("\x7b\"result\":" ++ "false" ++ ",\"transactionID\":" : String)
      = "\x7b\"result\":false,\"transactionID\":" := by decide
  simp only [payment.resultBody, payment.jsonBytes, fmtBool, fmtInt, Bool.false_eq_true,
    if_false, e]

/-- Witness for C4, at a counter value one short of a multiple of three and
the draw 1234: the bytes written are `{"result":false,"transactionID":34}`. -/
theorem no_cash_declined_witness :
    (payment.paymentHandler 2
      (payment.decoded "a1" ⟨"Johnny No-Cash", "t1", [⟨1, 2⟩], ""⟩ 1234)).w.error = none ∧
    (payment.paymentHandler 2
      (payment.decoded "a1" ⟨"Johnny No-Cash", "t1", [⟨1, 2⟩], ""⟩ 1234)).w.body
      = some "\x7b\"result\":false,\"transactionID\":34\x7d" :=
  ⟨(no_cash_declined 2 "a1" "t1" [⟨1, 2⟩] "" 1234 (by decide)).1,
    (no_cash_declined 2 "a1" "t1" [⟨1, 2⟩] "" 1234 (by decide)).2.trans (by decide)⟩

/-- C5: the action "undo" yields the empty response, neither a result body nor
an error envelope, for every customer (the empty one, "Johnny No-Cash" and
"Pay Retry" included), transaction, order and counter value; the counter is
left as it was and the handler does not sleep, so the undo test comes before
the customer validation and before every fault-injection rule. -/
theorem undo_empty_response (c : Int) (aid cust t : String) (o : List orderLine) (v : Nat) :
    (payment.paymentHandler c (payment.decoded aid ⟨cust, t, o, "undo"⟩ v)).w
      = ResponseWriter.empty ∧
    (payment.paymentHandler c (payment.decoded aid ⟨cust, t, o, "undo"⟩ v)).retrier = c ∧
    (payment.paymentHandler c (payment.decoded aid ⟨cust, t, o, "undo"⟩ v)).slept = 0 := by
  simp [payment.paymentHandler, payment.decoded]

/-- C6: for every decoded request that is not an undo and whose customer is
non-empty and neither "Johnny No-Cash" nor "Pay Retry", and for every value of
the counter, the payment handler writes no error envelope and a result body
whose result field is `true`. -/
theorem default_success (c : Int) (aid : String) (cc : payment.orderInfo) (v : Nat)
    (hu : cc.Action ≠ "undo") (h0 : cc.Customer ≠ "")
    (h1 : cc.Customer ≠ "Johnny No-Cash") (h2 : cc.Customer ≠ "Pay Retry") :
    (payment.paymentHandler c (payment.decoded aid cc v)).w.error = none ∧
    (payment.paymentHandler c (payment.decoded aid cc v)).w.body
      = some (payment.jsonBytes ⟨true, Intn 100 v⟩) := by
  have h := (paymentHandler_decoded c aid cc v hu h0).1
  simp only [h1, h2, false_and, if_false] at h
  rw [h]
  exact ⟨rfl, rfl⟩

/-- Witness for C6: the request of the "Alice" scenario. -/
theorem default_success_witness :
    (payment.paymentHandler 0
      (payment.decoded "a1" ⟨"Alice", "t1", [⟨1, 2⟩], ""⟩ 42)).w.error = none ∧
    (payment.paymentHandler 0
      (payment.decoded "a1" ⟨"Alice", "t1", [⟨1, 2⟩], ""⟩ 42)).w.body
      = some (payment.jsonBytes ⟨true, Intn 100 42⟩) :=
  default_success 0 "a1" ⟨"Alice", "t1", [⟨1, 2⟩], ""⟩ 42
    (by decide) (by decide) (by decide) (by decide)

/-- C7: every result body the payment handler writes, on whatever path, is the
JSON encoding of an order result whose transactionID is the draw reduced by
`rand.Intn(100)`, and that transactionID `t` satisfies `0 ≤ t < 100` for
every output of the random source. -/
theorem transaction_id_range (c : Int) (r : payment.Request) (b : String)
    (h : (payment.paymentHandler c r).w.body = some b) :
    ∃ p : Bool, b = payment.jsonBytes ⟨p, Intn 100 r.rand⟩ ∧
      0 ≤ (⟨p, Intn 100 r.rand⟩ : payment.orderResult).TransactionID ∧
      (⟨p, Intn 100 r.rand⟩ : payment.orderResult).TransactionID < 100 := by
  obtain ⟨aid, lw, um, v⟩ := r
  have hr := Intn_hundred_range v
  cases lw with
  | error e => simp [payment.paymentHandler, RespondWithError, ResponseWriter.empty] at h
  | ok u =>
    cases um with
    | error e => simp [payment.paymentHandler, RespondWithError, ResponseWriter.empty] at h
    | ok cc =>
      by_cases hu : cc.Action = "undo"
      · simp [payment.paymentHandler, hu, ResponseWriter.empty] at h
      · by_cases h0 : cc.Customer = ""
        · have hlen : len "" = 0 := rfl
          simp [payment.paymentHandler, hu, h0, hlen, RespondWithError,
            ResponseWriter.empty] at h
        · have hd := (paymentHandler_decoded c aid cc v hu h0).1
          have he : payment.paymentHandler c ⟨aid, .ok u, .ok cc, v⟩
              = payment.paymentHandler c (payment.decoded aid cc v) := rfl
          rw [he, hd] at h
          split at h
          · simp [payment.paymentFailed] at h
          · simp only [payment.resultBody, Option.some.injEq] at h
            exact ⟨_, h.symm, hr.1, hr.2⟩

/-- Witness for C7: the body written on the third "Pay Retry" call. -/
theorem transaction_id_range_witness :
    ∃ p : Bool, "\x7b\"result\":true,\"transactionID\":77\x7d"
        = payment.jsonBytes ⟨p, Intn 100 (payment.decoded "a1" ⟨"Pay Retry", "t1", [], ""⟩ 1977).rand⟩ ∧
      0 ≤ (⟨p, Intn 100 (payment.decoded "a1" ⟨"Pay Retry", "t1", [], ""⟩ 1977).rand⟩ :
        payment.orderResult).TransactionID ∧
      (⟨p, Intn 100 (payment.decoded "a1" ⟨"Pay Retry", "t1", [], ""⟩ 1977).rand⟩ :
        payment.orderResult).TransactionID < 100 :=
  transaction_id_range 2 (payment.decoded "a1" ⟨"Pay Retry", "t1", [], ""⟩ 1977)
    "\x7b\"result\":true,\"transactionID\":77\x7d" (by decide)

/-! ## Payment: the retry demo -/

open payment in
/-- One call that reaches the retry demo: the counter is incremented and the
call succeeds exactly when the new counter is a multiple of three. -/
theorem paymentHandler_payRetry (c : Int) (r : Request) (h : isPayRetry r = true) :
    (paymentHandler c r).retrier = incr c ∧
    (paymentHandler c r).w =
      (if rem (incr c) 3 = 0 then resultBody ⟨true, Intn 100 r.rand⟩ else paymentFailed) := by
  obtain ⟨aid, lw, um, v⟩ := r
  cases lw with
  | error e => simp [isPayRetry] at h
  | ok u =>
    cases um with
    | error e => simp [isPayRetry] at h
    | ok cc =>
      simp only [isPayRetry, Bool.and_eq_true, decide_eq_true_eq] at h
      obtain ⟨hu, hp⟩ := h
      have h0 : cc.Customer ≠ "" := by rw [hp]; decide
      have hd := paymentHandler_decoded c aid cc v hu h0
      have he : paymentHandler c ⟨aid, .ok u, .ok cc, v⟩
          = paymentHandler c (decoded aid cc v) := rfl
      rw [he, hd.1, hd.2]
      have hnc : ("Pay Retry" : String) ≠ "Johnny No-Cash" := by decide
      by_cases hr : rem (incr c) 3 = 0
      · simp [hp, hr, hnc]
      · simp [hp, hr]

open payment in
/-- One call that does not reach the retry demo leaves the counter as it
was, and its response does not depend on the counter. -/
theorem paymentHandler_other (c : Int) (r : Request) (h : isPayRetry r = false) :
    (paymentHandler c r).retrier = c ∧ ∀ d : Int, (paymentHandler d r).w = (paymentHandler c r).w := by
  obtain ⟨aid, lw, um, v⟩ := r
  cases lw with
  | error e => simp [paymentHandler]
  | ok u =>
    cases um with
    | error e => simp [paymentHandler]
    | ok cc =>
      by_cases hu : cc.Action = "undo"
      · simp [paymentHandler, hu]
      · by_cases h0 : cc.Customer = ""
        · have hlen : len "" = 0 := rfl
          simp [paymentHandler, hu, h0, hlen]
        · have hp : cc.Customer ≠ "Pay Retry" := by
            intro hp
            simp [isPayRetry, hu, hp] at h
          have he : ∀ d : Int, paymentHandler d ⟨aid, .ok u, .ok cc, v⟩
              = paymentHandler d (decoded aid cc v) := fun _ => rfl
          constructor
          · rw [he, (paymentHandler_decoded c aid cc v hu h0).2]
            simp [hp]
          · intro d
            rw [he, he, (paymentHandler_decoded c aid cc v hu h0).1,
              (paymentHandler_decoded d aid cc v hu h0).1]
            simp [hp]

open payment in
/-- Responses of a run of retry-demo calls started at a non-negative counter,
as long as the counter stays within range. -/
theorem serve_payRetry_getElem (rs : List Request) (hrs : ∀ r ∈ rs, isPayRetry r = true) :
    ∀ (c : Int) (i : Nat) (r : Request), 0 ≤ c → rs[i]? = some r → c + i + 1 ≤ maxInt →
      (serve c rs).2[i]? =
        some (if (c + i + 1) % 3 = 0 then resultBody ⟨true, Intn 100 r.rand⟩ else paymentFailed) := by
  induction rs with
  | nil => intro c i r _ hr; simp at hr
  | cons r0 rs ih =>
    intro c i r hc hr hb
    have h0 := paymentHandler_payRetry c r0 (hrs r0 (by simp))
    have hinc : incr c = c + 1 := by
      apply incr_of_lt
      · unfold minInt; omega
      · omega
    rw [hinc] at h0
    cases i with
    | zero =>
      simp only [List.getElem?_cons_zero, Option.some.injEq] at hr
      subst hr
      simp only [serve, List.getElem?_cons_zero, h0.2, rem_three_eq_zero_iff]
      simp
    | succ j =>
      simp only [List.getElem?_cons_succ] at hr
      have hrs2 : ∀ r ∈ rs, isPayRetry r = true := fun r hr => hrs r (by simp [hr])
      have := ih hrs2 (c + 1) j r (by omega) hr (by push_cast at hb ⊢; omega)
      simp only [serve, List.getElem?_cons_succ, h0.1, this]
      push_cast
      have e : c + 1 + (j : Int) + 1 = c + ((j : Int) + 1) + 1 := by ring
      rw [e]

/-- C3: starting from the initial counter value 0, in a sequence of non-undo
requests all with customer "Pay Retry", for every `n ≥ 1` below the overflow
bound the `n`-th call returns the "payment failed" error when `n mod 3` is
1 or 2 and a result body with result `true` when `n mod 3` is 0. -/
theorem pay_retry_every_third (rs : List payment.Request)
    (hrs : ∀ r ∈ rs, payment.isPayRetry r = true) (n : Nat) (r : payment.Request)
    (h1 : 1 ≤ n) (hr : rs[n - 1]? = some r) (hb : (n : Int) ≤ maxInt) :
    (n % 3 = 0 → (payment.serve payment.retrier rs).2[n - 1]?
        = some (payment.resultBody ⟨true, Intn 100 r.rand⟩)) ∧
    (n % 3 = 1 ∨ n % 3 = 2 → (payment.serve payment.retrier rs).2[n - 1]?
        = some payment.paymentFailed) := by
  have h := serve_payRetry_getElem rs hrs 0 (n - 1) r (le_refl _) hr (by omega)
  have e : (0 : Int) + ((n - 1 : Nat) : Int) + 1 = (n : Int) := by omega
  rw [e] at h
  unfold payment.retrier
  rw [h]
  constructor
  · intro hn
    have : (n : Int) % 3 = 0 := by omega
    simp [this]
  · intro hn
    have : ¬ (n : Int) % 3 = 0 := by omega
    simp [this]

/-- Witness for C3: the third of four "Pay Retry" calls. -/
theorem pay_retry_every_third_witness :
    (3 % 3 = 0 →
      (payment.serve payment.retrier
        [payment.payRetryRequest 5, payment.payRetryRequest 6, payment.payRetryRequest 7,
          payment.payRetryRequest 8]).2[3 - 1]?
        = some (payment.resultBody ⟨true, Intn 100 (payment.payRetryRequest 7).rand⟩)) ∧
    (3 % 3 = 1 ∨ 3 % 3 = 2 →
      (payment.serve payment.retrier
        [payment.payRetryRequest 5, payment.payRetryRequest 6, payment.payRetryRequest 7,
          payment.payRetryRequest 8]).2[3 - 1]?
        = some payment.paymentFailed) :=
  pay_retry_every_third
    [payment.payRetryRequest 5, payment.payRetryRequest 6, payment.payRetryRequest 7,
      payment.payRetryRequest 8]
    (by decide) 3 (payment.payRetryRequest 7) (by decide) rfl (by decide)

/-! ## Payment: what changes the counter -/

open payment in
/-- Requests that do not reach the retry demo can be dropped from a sequence:
the final counter and the responses of the remaining requests stay the same. -/
theorem serve_filter (rs : List Request) :
    ∀ c : Int, (serve c rs).1 = (serve c (rs.filter isPayRetry)).1 ∧
      payRetryResponses rs (serve c rs).2 = (serve c (rs.filter isPayRetry)).2 := by
  induction rs with
  | nil => intro c; simp [serve, payRetryResponses]
  | cons r rs ih =>
    intro c
    cases hr : isPayRetry r with
    | true =>
      have h := ih (paymentHandler c r).retrier
      unfold payRetryResponses at h ⊢
      simp only [List.filter_cons, hr, if_true, serve, List.zip_cons_cons, List.map_cons, h.1, h.2]
      simp
    | false =>
      have h0 := (paymentHandler_other c r hr).1
      have h := ih c
      unfold payRetryResponses at h ⊢
      simp only [List.filter_cons, hr, serve, List.zip_cons_cons, h0]
      simp [hr, h.1, h.2]

/-- C8, as stated, fails at the largest counter value: the increment of a
"Pay Retry" call wraps to the smallest value instead of adding one. -/
theorem counter_increment_wraps_counterexample :
    isInt maxInt ∧ payment.isPayRetry (payment.payRetryRequest 0) = true ∧
    (payment.paymentHandler maxInt (payment.payRetryRequest 0)).retrier ≠ maxInt + 1 ∧
    (payment.paymentHandler maxInt (payment.payRetryRequest 0)).retrier = minInt := by
  decide

/-- C8, amended: a decoded non-undo request of customer "Pay Retry" applies
Go's `++` to the counter, which adds exactly 1 below the largest `int` and
wraps to the smallest `int` at it, whether the call fails or succeeds; every
other request (undo, empty customer, malformed, any other customer) leaves
the counter unchanged and its response does not depend on the counter.  Hence
dropping the other requests from a sequence changes neither the final counter
nor the responses of the "Pay Retry" calls. -/
theorem counter_frame (c : Int) (r : payment.Request) (rs : List payment.Request)
    (hc : isInt c) :
    (payment.isPayRetry r = true →
      (payment.paymentHandler c r).retrier = incr c ∧
      (c < maxInt → (payment.paymentHandler c r).retrier = c + 1) ∧
      (c = maxInt → (payment.paymentHandler c r).retrier = minInt)) ∧
    (payment.isPayRetry r = false →
      (payment.paymentHandler c r).retrier = c ∧
      ∀ d : Int, (payment.paymentHandler d r).w = (payment.paymentHandler c r).w) ∧
    (payment.serve c rs).1 = (payment.serve c (rs.filter payment.isPayRetry)).1 ∧
    payment.payRetryResponses rs (payment.serve c rs).2
      = (payment.serve c (rs.filter payment.isPayRetry)).2 := by
  refine ⟨?_, ?_, serve_filter rs c⟩
  · intro h
    have h1 := (paymentHandler_payRetry c r h).1
    refine ⟨h1, ?_, ?_⟩
    · intro hlt; rw [h1]; exact incr_of_lt hc.1 hlt
    · intro he; rw [h1, he]; exact incr_maxInt
  · intro h
    exact paymentHandler_other c r h

/-- Witness for the amended C8: a "Pay Retry" call between an undo, a
malformed and an "Alice" request, from counter 4. -/
theorem counter_frame_witness :
    (payment.isPayRetry (payment.payRetryRequest 9) = true →
      (payment.paymentHandler 4 (payment.payRetryRequest 9)).retrier = incr 4 ∧
      ((4 : Int) < maxInt → (payment.paymentHandler 4 (payment.payRetryRequest 9)).retrier = 4 + 1) ∧
      ((4 : Int) = maxInt → (payment.paymentHandler 4 (payment.payRetryRequest 9)).retrier = minInt)) ∧
    (payment.isPayRetry (payment.payRetryRequest 9) = false →
      (payment.paymentHandler 4 (payment.payRetryRequest 9)).retrier = 4 ∧
      ∀ d : Int, (payment.paymentHandler d (payment.payRetryRequest 9)).w
        = (payment.paymentHandler 4 (payment.payRetryRequest 9)).w) ∧
    (payment.serve 4
        [payment.decoded "a1" ⟨"Pay Retry", "t1", [], "undo"⟩ 1, payment.payRetryRequest 2,
          ⟨"a2", .ok (), .error "unexpected end of JSON input", 3⟩,
          payment.decoded "a3" ⟨"Alice", "t2", [], ""⟩ 4, payment.payRetryRequest 5]).1
      = (payment.serve 4
        ([payment.decoded "a1" ⟨"Pay Retry", "t1", [], "undo"⟩ 1, payment.payRetryRequest 2,
          ⟨"a2", .ok (), .error "unexpected end of JSON input", 3⟩,
          payment.decoded "a3" ⟨"Alice", "t2", [], ""⟩ 4, payment.payRetryRequest 5].filter
            payment.isPayRetry)).1 ∧
    payment.payRetryResponses
        [payment.decoded "a1" ⟨"Pay Retry", "t1", [], "undo"⟩ 1, payment.payRetryRequest 2,
          ⟨"a2", .ok (), .error "unexpected end of JSON input", 3⟩,
          payment.decoded "a3" ⟨"Alice", "t2", [], ""⟩ 4, payment.payRetryRequest 5]
        (payment.serve 4
          [payment.decoded "a1" ⟨"Pay Retry", "t1", [], "undo"⟩ 1, payment.payRetryRequest 2,
            ⟨"a2", .ok (), .error "unexpected end of JSON input", 3⟩,
            payment.decoded "a3" ⟨"Alice", "t2", [], ""⟩ 4, payment.payRetryRequest 5]).2
      = (payment.serve 4
        ([payment.decoded "a1" ⟨"Pay Retry", "t1", [], "undo"⟩ 1, payment.payRetryRequest 2,
          ⟨"a2", .ok (), .error "unexpected end of JSON input", 3⟩,
          payment.decoded "a3" ⟨"Alice", "t2", [], ""⟩ 4, payment.payRetryRequest 5].filter
            payment.isPayRetry)).2 :=
  counter_frame 4 (payment.payRetryRequest 9)
    [payment.decoded "a1" ⟨"Pay Retry", "t1", [], "undo"⟩ 1, payment.payRetryRequest 2,
      ⟨"a2", .ok (), .error "unexpected end of JSON input", 3⟩,
      payment.decoded "a3" ⟨"Alice", "t2", [], ""⟩ 4, payment.payRetryRequest 5]
    (by decide)

/-! ## Payment: three consecutive retry calls, with wrap-around -/

/-- Of three successive increments of a counter other than `2^63 - 2`,
exactly one lands on a multiple of three. -/
theorem incr_three_times (c : Int) (hc : isInt c) (hne : c ≠ maxInt - 1) :
    (incr c % 3 = 0 ∧ incr (incr c) % 3 ≠ 0 ∧ incr (incr (incr c)) % 3 ≠ 0) ∨
    (incr c % 3 ≠ 0 ∧ incr (incr c) % 3 = 0 ∧ incr (incr (incr c)) % 3 ≠ 0) ∨
    (incr c % 3 ≠ 0 ∧ incr (incr c) % 3 ≠ 0 ∧ incr (incr (incr c)) % 3 = 0) := by
  by_cases h1 : c = maxInt
  · subst h1; decide
  · by_cases h2 : c = maxInt - 2
    · subst h2; decide
    · obtain ⟨hlo, hhi⟩ := hc
      have hlo2 : -(2 ^ 63 : Int) ≤ c := hlo
      have hhi2 : c ≤ 2 ^ 63 - 1 := hhi
      have h12 : c ≠ 2 ^ 63 - 1 := h1
      have h22 : c ≠ 2 ^ 63 - 1 - 2 := h2
      have h32 : c ≠ 2 ^ 63 - 1 - 1 := hne
      have e1 : incr c = c + 1 := incr_of_lt hlo (by unfold maxInt; omega)
      have e2 : incr (c + 1) = c + 1 + 1 :=
        incr_of_lt (by unfold minInt; omega) (by unfold maxInt; omega)
      have e3 : incr (c + 1 + 1) = c + 1 + 1 + 1 :=
        incr_of_lt (by unfold minInt; omega) (by unfold maxInt; omega)
      rw [e1, e2, e3]
      omega

/-- C10, as stated, fails: from the counter value `2^63 - 2` the next three
"Pay Retry" calls see the counter values `2^63 - 1`, `-2^63` and `-2^63 + 1`,
none a multiple of three, and all three return "payment failed". -/
theorem three_failures_at_wrap_counterexample :
    isInt (maxInt - 1) ∧
    (payment.serve (maxInt - 1)
      [payment.payRetryRequest 0, payment.payRetryRequest 1, payment.payRetryRequest 2]).2
      = [payment.paymentFailed, payment.paymentFailed, payment.paymentFailed] := by
  decide

/-- C10, amended: with the counter a 64-bit signed `int`, for every counter
value other than `2^63 - 2`, among any three consecutive non-undo "Pay Retry"
calls exactly one succeeds (a result body with result `true`) and the other
two return the "payment failed" error. -/
theorem three_consecutive_one_success (c : Int) (r1 r2 r3 : payment.Request)
    (hc : isInt c) (hne : c ≠ maxInt - 1)
    (h1 : payment.isPayRetry r1 = true) (h2 : payment.isPayRetry r2 = true)
    (h3 : payment.isPayRetry r3 = true) :
    (payment.serve c [r1, r2, r3]).2
        = [payment.resultBody ⟨true, Intn 100 r1.rand⟩, payment.paymentFailed,
            payment.paymentFailed] ∨
    (payment.serve c [r1, r2, r3]).2
        = [payment.paymentFailed, payment.resultBody ⟨true, Intn 100 r2.rand⟩,
            payment.paymentFailed] ∨
    (payment.serve c [r1, r2, r3]).2
        = [payment.paymentFailed, payment.paymentFailed,
            payment.resultBody ⟨true, Intn 100 r3.rand⟩] := by
  have a1 := paymentHandler_payRetry c r1 h1
  have a2 := paymentHandler_payRetry (incr c) r2 h2
  have a3 := paymentHandler_payRetry (incr (incr c)) r3 h3
  simp only [payment.serve, a1.1, a1.2, a2.1, a2.2, a3.1, a3.2, rem_three_eq_zero_iff]
  have key := incr_three_times c hc hne
  rcases key with ⟨k1, k2, k3⟩ | ⟨k1, k2, k3⟩ | ⟨k1, k2, k3⟩
  · left; simp [k1, k2, k3]
  · right; left; simp [k1, k2, k3]
  · right; right; simp [k1, k2, k3]

/-- Witness for the amended C10, across the wrap: from the largest counter
value the calls see `-2^63`, `-2^63 + 1` and `-2^63 + 2`. -/
theorem three_consecutive_one_success_witness :
    (payment.serve maxInt
      [payment.payRetryRequest 10, payment.payRetryRequest 11, payment.payRetryRequest 12]).2
        = [payment.resultBody ⟨true, Intn 100 (payment.payRetryRequest 10).rand⟩,
            payment.paymentFailed, payment.paymentFailed] ∨
    (payment.serve maxInt
      [payment.payRetryRequest 10, payment.payRetryRequest 11, payment.payRetryRequest 12]).2
        = [payment.paymentFailed,
            payment.resultBody ⟨true, Intn 100 (payment.payRetryRequest 11).rand⟩,
            payment.paymentFailed] ∨
    (payment.serve maxInt
      [payment.payRetryRequest 10, payment.payRetryRequest 11, payment.payRetryRequest 12]).2
        = [payment.paymentFailed, payment.paymentFailed,
            payment.resultBody ⟨true, Intn 100 (payment.payRetryRequest 12).rand⟩] :=
  three_consecutive_one_success maxInt
    (payment.payRetryRequest 10) (payment.payRetryRequest 11) (payment.payRetryRequest 12)
    (by decide) (by decide) (by decide) (by decide) (by decide)

/-! ## What a response depends on -/

open payment in
theorem resultBody_ne_paymentFailed (o : orderResult) : resultBody o ≠ paymentFailed := by
  intro h
  have := congrArg ResponseWriter.error h
  simp [resultBody, paymentFailed] at this

/-- C9, as stated, fails for the payment handler: two invocations with the
same decoded request and the same counter value write different result
bodies when the random source gives different draws. -/
theorem same_request_other_body_counterexample :
    (payment.paymentHandler 0 (payment.decoded "a1" ⟨"Alice", "t1", [⟨1, 2⟩], ""⟩ 1)).w
      ≠ (payment.paymentHandler 0 (payment.decoded "a1" ⟨"Alice", "t1", [⟨1, 2⟩], ""⟩ 2)).w := by
  decide

/-- C9, amended: the outcome of the log writer, the decoded request and the
counter value determine, for the payment handler, the counter afterwards, the
error envelope, whether a result body is written and its result field; the
body is then the encoding of that result field with the transactionID drawn
by `rand.Intn(100)`, so two such invocations give identical responses when
their draws agree and differ in the transactionID alone otherwise.  The
shipping response is determined by the outcome of the log writer and the
decoded request alone: it does not depend on the counter, which the shipping
handler leaves as it was. -/
theorem handlers_determined :
    (∀ (c : Int) (lw : Except String Unit) (um : Except String payment.orderInfo),
      ∃ (c1 : Int) (err : Option (String × String)) (p : Option Bool),
        ∀ (aid : String) (v : Nat),
          (payment.paymentHandler c ⟨aid, lw, um, v⟩).retrier = c1 ∧
          (payment.paymentHandler c ⟨aid, lw, um, v⟩).w.error = err ∧
          (payment.paymentHandler c ⟨aid, lw, um, v⟩).w.body
            = p.map (fun b => payment.jsonBytes ⟨b, Intn 100 v⟩)) ∧
    (∀ (lw : Except String Unit) (um : Except String shipping.shippingInfo),
      ∃ w : ResponseWriter, ∀ (c : Int) (aid : String),
        (shipping.creditHandler c ⟨aid, lw, um⟩).w = w ∧
        (shipping.creditHandler c ⟨aid, lw, um⟩).retrier = c) := by
  constructor
  · intro c lw um
    cases lw with
    | error e =>
      exact ⟨c, some ("io.direktiv.logger", e), none, fun aid v => by
        simp [payment.paymentHandler, RespondWithError, ResponseWriter.empty]⟩
    | ok u =>
      cases um with
      | error e =>
        exact ⟨c, some ("io.direktiv.data", e), none, fun aid v => by
          simp [payment.paymentHandler, RespondWithError, ResponseWriter.empty]⟩
      | ok cc =>
        by_cases hu : cc.Action = "undo"
        · exact ⟨c, none, none, fun aid v => by
            simp [payment.paymentHandler, hu, ResponseWriter.empty]⟩
        · by_cases h0 : cc.Customer = ""
          · have hlen : len "" = 0 := rfl
            exact ⟨c, some ("io.direktiv.customer", "no customer provided"), none, fun aid v => by
              simp [payment.paymentHandler, hu, h0, hlen, RespondWithError,
                ResponseWriter.empty]⟩
          · have hd := fun aid v => paymentHandler_decoded c aid cc v hu h0
            have he : ∀ aid v, payment.paymentHandler c ⟨aid, .ok u, .ok cc, v⟩
                = payment.paymentHandler c (payment.decoded aid cc v) := fun _ _ => rfl
            by_cases hf : cc.Customer = "Pay Retry" ∧ rem (incr c) 3 ≠ 0
            · refine ⟨if cc.Customer = "Pay Retry" then incr c else c,
                some ("io.direktiv.customer", "payment failed"), none, fun aid v => ?_⟩
              rw [he, (hd aid v).1, (hd aid v).2, if_pos hf]
              exact ⟨rfl, rfl, rfl⟩
            · refine ⟨if cc.Customer = "Pay Retry" then incr c else c, none,
                some (if cc.Customer = "Johnny No-Cash" then false else true), fun aid v => ?_⟩
              rw [he, (hd aid v).1, (hd aid v).2, if_neg hf]
              exact ⟨rfl, rfl, rfl⟩
  · intro lw um
    cases lw with
    | error e =>
      exact ⟨⟨some ("io.direktiv.logger", e), none⟩, fun c aid => by
        simp [shipping.creditHandler, RespondWithError, ResponseWriter.empty]⟩
    | ok u =>
      cases um with
      | error e =>
        exact ⟨⟨some ("io.direktiv.data", e), none⟩, fun c aid => by
          simp [shipping.creditHandler, RespondWithError, ResponseWriter.empty]⟩
      | ok cc =>
        by_cases h0 : cc.Customer = ""
        · have hlen : len "" = 0 := rfl
          exact ⟨missingCustomer, fun c aid => by
            simp [shipping.creditHandler, h0, hlen, RespondWithError, ResponseWriter.empty,
              missingCustomer]⟩
        · have hl := len_ne_zero h0
          exact ⟨⟨none, some (shipping.jsonMarshal (if cc.Customer = "Johnny Mars" then false else true))⟩,
            fun c aid => by
              simp [shipping.creditHandler, hl, Write, ResponseWriter.empty]⟩

end Saga
